import Mathlib

/-!
Shallow embedding of the request-resolution pipeline of `src/app.py`
(`resumo-tc`): style catalog, prompt construction, the memoizing remote
call `chamar_perplexity`, the `/api/summarize` handler, and the retry
configuration of `get_session`.

Modelling conventions:
* Python strings are Lean `String`s; `texto[:n]` is `pySlice texto n`
  (first `n` code points) and `texto.strip()` is `pyStrip texto`.
* The module-level dict `RESPONSE_CACHE` is threaded explicitly as an
  insertion-ordered association list (head = oldest entry), which is the
  iteration order of a Python dict; `d.pop(next(iter(d)))` is `List.tail`.
* External collaborators (the `hashlib.md5` digest and the HTTP transport)
  are oracle parameters of an `Env`; exceptions become an explicit error
  type whose constructors correspond to the distinct `raise` sites.
* Network traffic and logging are made observable as counters and a log
  list in the returned record.
-/

/-- Python `s[:n]`: the first `n` characters (code points) of `s`. -/
def pySlice (s : String) (n : Nat) : String := String.mk (s.data.take n)

/-- Python `s.strip()`: remove leading and trailing whitespace. -/
def pyStrip (s : String) : String :=
  String.mk (((s.data.dropWhile Char.isWhitespace).reverse.dropWhile Char.isWhitespace).reverse)

/-- `MODEL_NAME` constant (src/app.py line 36). -/
def MODEL_NAME : String := "sonar-pro"

/-- `MAX_TEXT_LENGTH` constant (src/app.py line 38). -/
def MAX_TEXT_LENGTH : Nat := 100000

/-- `PERPLEXITY_URL` constant (src/app.py line 33). -/
def PERPLEXITY_URL : String := "https://api.perplexity.ai/chat/completions"

/-- One entry of `STYLE_PROMPTS` (src/app.py lines 80-128). -/
structure StyleEntry where
  persona : String
  instruction : String
  constraints : String
  tokens : Nat
deriving DecidableEq

/-- The `STYLE_PROMPTS` table (src/app.py lines 80-128), in source order. -/
def STYLE_PROMPTS : List (String × StyleEntry) :=
  [("curto",
    { persona := "Editor Chefe de Tecnologia e Defesa do Consumidor (Estilo \x27TL;DR\x27)."
      instruction :=
        "A tua missão é poupar tempo. Identifica IMEDIATAMENTE as \x27armadilhas\x27. " ++
        "Não faças introduções. Vai direto aos factos." ++
        "\nESTRUTURA OBRIGATÓRIA:" ++
        "\n1. 💰 **Custos Reais:** (Quanto custa? Renova sozinho?)" ++
        "\n2. 🚨 **Riscos Críticos:** (O que perco? Onde estão os meus dados?)" ++
        "\n3. 🚪 **Como Sair:** (É difícil cancelar?)"
      constraints := "Máximo 300 palavras. Usa bullet points curtos. Sem \x27juridiquês\x27."
      tokens := 1000 }),
   ("detalhado",
    { persona := "Advogado Sénior Especialista em Direito do Consumidor Europeu e RGPD."
      instruction :=
        "Faz uma análise forense do documento. Identifica cláusulas abusivas à luz da lei portuguesa/europeia. " ++
        "Explica o impacto prático de cada termo técnico." ++
        "\nESTRUTURA:" ++
        "\n- Análise de Privacidade (RGPD)" ++
        "\n- Propriedade Intelectual (Conteúdos do utilizador)" ++
        "\n- Resolução de Litígios (Arbitragem vs Tribunais)" ++
        "\n- Cláusulas de Exclusão de Responsabilidade"
      constraints := "Cita conceitos legais relevantes. Sê exaustivo."
      tokens := 3000 }),
   ("el5",
    { persona := "Professor do Ensino Básico (Explicar a uma Criança de 10 anos)."
      instruction :=
        "Traduz tudo para analogias do recreio ou da vida doméstica. " ++
        "Se fala em \x27dados biométricos\x27, diz \x27o formato do teu rosto\x27. " ++
        "Se fala em \x27renúncia de foro\x27, diz \x27não podes fazer queixa à professora\x27."
      constraints := "Usa emojis. Linguagem super simples. Zero termos técnicos."
      tokens := 1500 }),
   ("riscos",
    { persona := "Auditor de Segurança Paranóico (Red Team)."
      instruction :=
        "O teu único objetivo é encontrar motivos para NÃO ACEITAR este contrato. " ++
        "Ignora os benefícios. Foca-te no pior cenário possível (Worst-Case Scenario). " ++
        "Destaca: Venda de dados, multas escondidas, vigilância."
      constraints := "Usa 🛑 para perigos extremos e ⚠️ para alertas. Sê alarmista mas factual."
      tokens := 2000 })]

/-- `STYLE_PROMPTS.get(estilo_key, STYLE_PROMPTS["curto"])` (src/app.py line 136):
lookup with silent fallback to the `"curto"` entry. -/
def styleGet (estilo_key : String) : StyleEntry :=
  (((STYLE_PROMPTS.find? (fun p => p.1 == estilo_key)).map Prod.snd).getD
    (((STYLE_PROMPTS.find? (fun p => p.1 == "curto")).map Prod.snd).getD default))
where default : StyleEntry := { persona := "", instruction := "", constraints := "", tokens := 0 }

/-- The cache signature `f"{texto[:5000]}-{estilo_key}-{custom_prompt}"`
(src/app.py line 140). -/
def input_signature (texto estilo_key custom_prompt : String) : String :=
  pySlice texto 5000 ++ "-" ++ estilo_key ++ "-" ++ custom_prompt

/-- The in-memory `RESPONSE_CACHE` (src/app.py line 41): a Python dict modelled
as an insertion-ordered association list whose head is the oldest entry. -/
abbrev Cache := List (String × String)

/-- Dict read `RESPONSE_CACHE[k]` (as an `Option`). -/
def cacheGet (c : Cache) (k : String) : Option String :=
  (c.find? (fun p => p.1 == k)).map Prod.snd

/-- Dict membership `k in RESPONSE_CACHE`. -/
def cacheContains (c : Cache) (k : String) : Bool :=
  c.any (fun p => p.1 == k)

/-- The eviction guard (src/app.py lines 198-199):
`if len(RESPONSE_CACHE) > 50: RESPONSE_CACHE.pop(next(iter(RESPONSE_CACHE)))`.
`next(iter(d))` is the oldest (first-inserted) key, so the pop drops the head. -/
def cacheEvict (c : Cache) : Cache :=
  if c.length > 50 then c.tail else c

/-- Dict write `RESPONSE_CACHE[k] = v` (src/app.py line 200): overwrite in place
when the key is present (keeping its position), append otherwise. -/
def cacheInsert (c : Cache) (k v : String) : Cache :=
  if c.any (fun p => p.1 == k) then
    c.map (fun p => if p.1 == k then (k, v) else p)
  else
    c ++ [(k, v)]

/-- The whole cache-update sequence of src/app.py lines 198-200:
evict-if-over-threshold, then insert. -/
def cachePut (c : Cache) (k v : String) : Cache :=
  cacheInsert (cacheEvict c) k v

/-- One message of the chat payload. -/
structure Message where
  role : String
  content : String

/-- The JSON body posted to the remote API (src/app.py lines 177-186). -/
structure Payload where
  model : String
  messages : List Message
  temperature : ℚ
  max_tokens : Nat
  frequency_penalty : ℚ

/-- The system prompt (src/app.py lines 148-154). -/
def system_content (style_config : StyleEntry) : String :=
  "Tu és a IA \x27Termos Claros\x27.\n" ++
  "PERSONA: " ++ style_config.persona ++ "\n" ++
  "OBJETIVO: " ++ style_config.instruction ++ "\n" ++
  "RESTRIÇÕES: " ++ style_config.constraints ++ "\n" ++
  "IDIOMA: Português de Portugal (PT-PT) nativo e fluente."

/-- The character count reported in the user prompt lead-in: `len(texto)`,
the length of the original, untruncated text (src/app.py line 159). -/
def reportedCharCount (texto : String) : Nat := texto.length

/-- The text actually embedded in the user prompt: `texto[:MAX_TEXT_LENGTH]`
(src/app.py line 160). -/
def truncatedText (texto : String) : String := pySlice texto MAX_TEXT_LENGTH

/-- The user prompt (src/app.py lines 158-169), including the conditional
`custom_prompt` suffix. -/
def user_content (texto custom_prompt : String) : String :=
  let base :=
    "Analisa este texto legal (" ++ toString (reportedCharCount texto) ++
    " caracteres). Texto abaixo:\n\n" ++
    "\x27\x27\x27" ++ truncatedText texto ++ "\x27\x27\x27\n\n" ++
    "--- INSTRUÇÃO FINAL DE FORMATAÇÃO ---\n" ++
    "1. Começa SEMPRE com este bloco exato (usa o quote >):\n" ++
    "   > **⚠️ AVISO:** Análise gerada por IA (Modelo Sonar-Pro). Não dispensa consulta jurídica profissional.\n\n" ++
    "2. Usa Markdown rico (negrito, tabelas, listas).\n" ++
    "3. Se houver valores monetários ou prazos, CRIA UMA TABELA."
  if custom_prompt = "" then base
  else base ++ "\n\nATENÇÃO AO PEDIDO DO UTILIZADOR: " ++ custom_prompt

/-- The payload `chamar_perplexity` posts for a given input triple
(src/app.py lines 177-186). -/
def payloadFor (texto estilo_key custom_prompt : String) : Payload :=
  let style_config := styleGet estilo_key
  { model := MODEL_NAME
    messages := [⟨"system", system_content style_config⟩,
                 ⟨"user", user_content texto custom_prompt⟩]
    temperature := 1 / 10
    max_tokens := style_config.tokens
    frequency_penalty := 1 / 2 }

/-- Outcome of one `http_session.post` call, as observed by
`chamar_perplexity`: a timeout (`requests.exceptions.Timeout`), some other
transport-level exception carrying a message, or a response with a status
code and, when the body parse `response.json()["choices"][0]["message"]["content"]`
succeeds, the parsed content. -/
inductive PostResult where
  | timeout
  | netError (msg : String)
  | response (status : Nat) (content : Option String)

/-- The process environment of `chamar_perplexity`: the optional
`PERPLEXITY_API_KEY`, the `hashlib.md5(...).hexdigest()` digest (an external
library, modelled as a string-to-string oracle), and the HTTP transport
(the retrying session, modelled as an oracle from the posted payload to
the observed outcome). -/
structure Env where
  apiKey : Option String
  md5hex : String → String
  transport : Payload → PostResult

/-- The cache key of a call: `hashlib.md5(input_signature.encode()).hexdigest()`
(src/app.py line 141). -/
def keyOf (env : Env) (texto estilo_key custom_prompt : String) : String :=
  env.md5hex (input_signature texto estilo_key custom_prompt)

/-- The distinct `raise RuntimeError(...)` sites of `chamar_perplexity`
(src/app.py lines 133, 206, 209), each carrying its user-facing message. -/
inductive AppError where
  | configError (msg : String)
  | timeoutError (msg : String)
  | remoteError (msg : String)
deriving DecidableEq

/-- The message carried by an error (what `str(e)` yields in the handler). -/
def AppError.msg : AppError → String
  | .configError m => m
  | .timeoutError m => m
  | .remoteError m => m

/-- Message of the missing-credential error (src/app.py line 133). -/
def CONFIG_ERROR_MSG : String := "Erro de configuração no servidor."

/-- The critical log emitted when the credential is missing (src/app.py line 132). -/
def CONFIG_CRITICAL_LOG : String := "API Key não configurada. Verifica as variáveis de ambiente."

/-- Message of the timeout error (src/app.py line 206). -/
def TIMEOUT_ERROR_MSG : String :=
  "A IA (Sonar-Pro) demorou demasiado a pensar. O documento pode ser muito complexo."

/-- Prefix of every generic remote-error message (src/app.py line 209). -/
def REMOTE_ERROR_PREFIX : String := "Erro ao processar: "

/-- Modelled from the spec: `str(e)` of the `requests.HTTPError` raised by
`response.raise_for_status()` for an error status. `requests` is an external
library; only the fact that some message is produced matters here. -/
def raiseForStatusMsg (status : Nat) : String :=
  toString status ++ " Error for url: " ++ PERPLEXITY_URL

/-- Modelled from the spec: `str(e)` of the exception raised when the response
body lacks the expected completion structure (external parsing detail). -/
def jsonPathErrMsg : String := "\x27choices\x27"

/-- Result of one `chamar_perplexity` call: the returned summary or the raised
error, the cache left behind, and the observable effects (network calls made,
cache lookups made, log lines emitted). -/
structure CallResult where
  result : Except AppError String
  cache : Cache
  networkCalls : Nat
  cacheLookups : Nat
  logs : List String

/-- `chamar_perplexity` (src/app.py lines 130-209), with the global
`RESPONSE_CACHE` threaded explicitly. -/
def chamar_perplexity (env : Env) (cache : Cache)
    (texto estilo_key custom_prompt : String) : CallResult :=
  match env.apiKey with
  | none =>
    { result := .error (.configError CONFIG_ERROR_MSG)
      cache := cache
      networkCalls := 0
      cacheLookups := 0
      logs := [CONFIG_CRITICAL_LOG] }
  | some _ =>
    let cache_key := keyOf env texto estilo_key custom_prompt
    if cacheContains cache cache_key then
      { result := .ok ((cacheGet cache cache_key).getD "")
        cache := cache
        networkCalls := 0
        cacheLookups := 1
        logs := ["Cache hit para: " ++ cache_key] }
    else
      let callLog := "A chamar Perplexity (Modelo: " ++ MODEL_NAME ++
        ", Estilo: " ++ estilo_key ++ ")..."
      match env.transport (payloadFor texto estilo_key custom_prompt) with
      | .timeout =>
        { result := .error (.timeoutError TIMEOUT_ERROR_MSG)
          cache := cache
          networkCalls := 1
          cacheLookups := 1
          logs := [callLog, "Timeout na API da Perplexity."] }
      | .netError m =>
        { result := .error (.remoteError (REMOTE_ERROR_PREFIX ++ m))
          cache := cache
          networkCalls := 1
          cacheLookups := 1
          logs := [callLog, "Erro API: " ++ m] }
      | .response status content =>
        if 400 ≤ status ∧ status < 600 then
          { result := .error (.remoteError (REMOTE_ERROR_PREFIX ++ raiseForStatusMsg status))
            cache := cache
            networkCalls := 1
            cacheLookups := 1
            logs := [callLog, "Erro API: " ++ raiseForStatusMsg status] }
        else
          match content with
          | none =>
            { result := .error (.remoteError (REMOTE_ERROR_PREFIX ++ jsonPathErrMsg))
              cache := cache
              networkCalls := 1
              cacheLookups := 1
              logs := [callLog, "Erro API: " ++ jsonPathErrMsg] }
          | some result =>
            { result := .ok result
              cache := cachePut cache (keyOf env texto estilo_key custom_prompt) result
              networkCalls := 1
              cacheLookups := 1
              logs := [callLog] }

/-- The JSON body of the handler response. -/
inductive ApiBody where
  | summary (s : String)
  | errorMsg (s : String)
deriving DecidableEq

/-- Result of one `/api/summarize` request. -/
structure HandlerResult where
  status : Nat
  body : ApiBody
  cache : Cache
  networkCalls : Nat
  cacheLookups : Nat
  logs : List String

/-- The `/api/summarize` handler `api_summarize` (src/app.py lines 217-246),
on the plain-text path (`terms_text` form/JSON field; the PDF branch is the
out-of-scope external extractor). Absent `style`/`custom_prompt` default to
`"curto"`/`""` as in the form-request path. -/
def api_summarize (env : Env) (cache : Cache)
    (terms_text style custom_prompt : Option String) : HandlerResult :=
  let texto_final := terms_text.getD ""
  if texto_final = "" ∨ (pyStrip texto_final).length < 10 then
    { status := 400
      body := .errorMsg "Texto insuficiente para análise."
      cache := cache
      networkCalls := 0
      cacheLookups := 0
      logs := [] }
  else
    let estilo := style.getD "curto"
    let custom := custom_prompt.getD ""
    let r := chamar_perplexity env cache texto_final estilo custom
    match r.result with
    | .ok resumo =>
      { status := 200
        body := .summary resumo
        cache := r.cache
        networkCalls := r.networkCalls
        cacheLookups := r.cacheLookups
        logs := r.logs }
    | .error e =>
      { status := 500
        body := .errorMsg e.msg
        cache := r.cache
        networkCalls := r.networkCalls
        cacheLookups := r.cacheLookups
        logs := r.logs }

/-- A sequence of `chamar_perplexity` calls (fixed style and custom prompt,
one call per text), threading the cache. -/
def runSummaries (env : Env) (estilo custom : String)
    (textos : List String) (cache : Cache) : Cache :=
  textos.foldl (fun c t => (chamar_perplexity env c t estilo custom).cache) cache

/-- The `Retry` configuration of `get_session` (src/app.py lines 48-53). -/
structure RetryConfig where
  total : Nat
  backoff_factor : ℚ
  status_forcelist : List Nat
  allowed_methods : List String

/-- The retry strategy mounted on the session (src/app.py lines 48-53). -/
def retry_strategy : RetryConfig :=
  { total := 3
    backoff_factor := 1 / 2
    status_forcelist := [500, 502, 503, 504]
    allowed_methods := ["POST"] }

/-- Modelled from the spec: urllib3 (an external library) sleeps
`backoff_factor * 2^(n-1)` seconds before the `n`-th retry. -/
def backoff_delay (cfg : RetryConfig) (n : Nat) : ℚ :=
  cfg.backoff_factor * 2 ^ (n - 1)

/-- Modelled from the spec: urllib3 (an external library) retries on a
response status only when the request method is in `allowed_methods` and the
status is in `status_forcelist`. -/
def retries_on_status (cfg : RetryConfig) (method : String) (status : Nat) : Bool :=
  cfg.allowed_methods.contains method && cfg.status_forcelist.contains status

/-! ## Basic lemmas about the embedded primitives -/

theorem pySlice_length (s : String) (n : Nat) :
    (pySlice s n).length = min n s.length := by
  show (s.data.take n).length = min n s.data.length
  exact List.length_take n s.data

theorem pyStrip_empty : pyStrip "" = "" := rfl

theorem cacheContains_isSome (c : Cache) (k : String) :
    cacheContains c k = (cacheGet c k).isSome := by
  rw [cacheContains, cacheGet, Option.isSome_map']
  cases h : c.find? (fun p => p.1 == k) with
  | none =>
    rw [List.find?_eq_none] at h
    simp only [Option.isSome_none]
    rw [List.any_eq_false]
    exact h
  | some x =>
    simp only [Option.isSome_some]
    have hs : (c.find? (fun p => p.1 == k)).isSome := by rw [h]; rfl
    rw [List.find?_isSome] at hs
    obtain ⟨y, hy, hpy⟩ := hs
    rw [List.any_eq_true]
    exact ⟨y, hy, hpy⟩

theorem cacheGet_cons_self (c : Cache) (k v : String) :
    cacheGet ((k, v) :: c) k = some v := by
  rw [cacheGet, List.find?_cons_of_pos _ (by simp)]
  rfl

theorem cacheGet_cons_of_ne (p : String × String) (c : Cache) (k : String)
    (h : (p.1 == k) = false) : cacheGet (p :: c) k = cacheGet c k := by
  rw [cacheGet, cacheGet, List.find?_cons_of_neg _ (by simp [h])]

theorem cacheGet_insert_self (c : Cache) (k v : String) :
    cacheGet (cacheInsert c k v) k = some v := by
  induction c with
  | nil =>
    simp only [cacheInsert, List.any_nil, Bool.false_eq_true, if_neg, List.nil_append]
    exact cacheGet_cons_self [] k v
  | cons p rest ih =>
    by_cases hk : p.1 = k
    · have hb : (p.1 == k) = true := beq_iff_eq.2 hk
      have hany : ((p :: rest).any fun q => q.1 == k) = true := by simp [hb]
      rw [cacheInsert, hany, if_pos rfl, List.map_cons, hb, if_pos rfl]
      exact cacheGet_cons_self _ k v
    · have hb : (p.1 == k) = false := beq_eq_false_iff_ne.2 hk
      rw [cacheInsert, List.any_cons, hb, Bool.false_or]
      cases ha : rest.any (fun q => q.1 == k) with
      | true =>
        rw [if_pos rfl, List.map_cons, hb, if_neg (by simp)]
        rw [cacheGet_cons_of_ne p _ k hb]
        have hrest := ih
        rw [cacheInsert, ha, if_pos rfl] at hrest
        exact hrest
      | false =>
        rw [if_neg (by simp), List.cons_append]
        rw [cacheGet_cons_of_ne p _ k hb]
        have hrest := ih
        rw [cacheInsert, ha, if_neg (by simp)] at hrest
        exact hrest

theorem cacheGet_put_self (c : Cache) (k v : String) :
    cacheGet (cachePut c k v) k = some v :=
  cacheGet_insert_self (cacheEvict c) k v

theorem cacheInsert_length_le (c : Cache) (k v : String) :
    (cacheInsert c k v).length ≤ c.length + 1 := by
  rw [cacheInsert]
  split
  · rw [List.length_map]; omega
  · rw [List.length_append]; simp

theorem cachePut_length_le (c : Cache) (k v : String) (h : c.length ≤ 51) :
    (cachePut c k v).length ≤ 51 := by
  have h1 := cacheInsert_length_le (cacheEvict c) k v
  have h2 : (cacheEvict c).length ≤ 50 := by
    rw [cacheEvict]
    split
    · rw [List.length_tail]; omega
    · omega
  rw [cachePut]
  omega

theorem cacheInsert_fresh (c : Cache) (k v : String)
    (h : c.any (fun p => p.1 == k) = false) :
    cacheInsert c k v = c ++ [(k, v)] := by
  rw [cacheInsert, h]
  simp

theorem cachePut_fresh_small (c : Cache) (k v : String)
    (hlen : c.length ≤ 50) (h : cacheContains c k = false) :
    cachePut c k v = c ++ [(k, v)] := by
  have he : cacheEvict c = c := by rw [cacheEvict]; rw [if_neg (by omega)]
  rw [cachePut, he, cacheInsert_fresh c k v h]

/-! ## Branch characterizations of `chamar_perplexity` -/

theorem chamar_noKey (env : Env) (cache : Cache) (texto estilo_key custom_prompt : String)
    (hk : env.apiKey = none) :
    chamar_perplexity env cache texto estilo_key custom_prompt =
      { result := .error (.configError CONFIG_ERROR_MSG)
        cache := cache
        networkCalls := 0
        cacheLookups := 0
        logs := [CONFIG_CRITICAL_LOG] } := by
  rw [chamar_perplexity, hk]

theorem chamar_hit (env : Env) (cache : Cache) (texto estilo_key custom_prompt : String)
    (k : String) (hk : env.apiKey = some k)
    (hc : cacheContains cache (keyOf env texto estilo_key custom_prompt) = true) :
    chamar_perplexity env cache texto estilo_key custom_prompt =
      { result := .ok ((cacheGet cache (keyOf env texto estilo_key custom_prompt)).getD "")
        cache := cache
        networkCalls := 0
        cacheLookups := 1
        logs := ["Cache hit para: " ++ keyOf env texto estilo_key custom_prompt] } := by
  rw [chamar_perplexity, hk]
  simp [hc]

theorem chamar_miss_timeout (env : Env) (cache : Cache)
    (texto estilo_key custom_prompt : String) (k : String) (hk : env.apiKey = some k)
    (hc : cacheContains cache (keyOf env texto estilo_key custom_prompt) = false)
    (ht : env.transport (payloadFor texto estilo_key custom_prompt) = .timeout) :
    chamar_perplexity env cache texto estilo_key custom_prompt =
      { result := .error (.timeoutError TIMEOUT_ERROR_MSG)
        cache := cache
        networkCalls := 1
        cacheLookups := 1
        logs := ["A chamar Perplexity (Modelo: " ++ MODEL_NAME ++ ", Estilo: " ++ estilo_key ++ ")...",
                 "Timeout na API da Perplexity."] } := by
  rw [chamar_perplexity, hk]
  simp [hc, ht]

theorem chamar_miss_netError (env : Env) (cache : Cache)
    (texto estilo_key custom_prompt : String) (k m : String) (hk : env.apiKey = some k)
    (hc : cacheContains cache (keyOf env texto estilo_key custom_prompt) = false)
    (ht : env.transport (payloadFor texto estilo_key custom_prompt) = .netError m) :
    chamar_perplexity env cache texto estilo_key custom_prompt =
      { result := .error (.remoteError (REMOTE_ERROR_PREFIX ++ m))
        cache := cache
        networkCalls := 1
        cacheLookups := 1
        logs := ["A chamar Perplexity (Modelo: " ++ MODEL_NAME ++ ", Estilo: " ++ estilo_key ++ ")...",
                 "Erro API: " ++ m] } := by
  rw [chamar_perplexity, hk]
  simp [hc, ht]

theorem chamar_miss_badStatus (env : Env) (cache : Cache)
    (texto estilo_key custom_prompt : String) (k : String) (status : Nat)
    (content : Option String) (hk : env.apiKey = some k)
    (hc : cacheContains cache (keyOf env texto estilo_key custom_prompt) = false)
    (ht : env.transport (payloadFor texto estilo_key custom_prompt) = .response status content)
    (hst : 400 ≤ status ∧ status < 600) :
    chamar_perplexity env cache texto estilo_key custom_prompt =
      { result := .error (.remoteError (REMOTE_ERROR_PREFIX ++ raiseForStatusMsg status))
        cache := cache
        networkCalls := 1
        cacheLookups := 1
        logs := ["A chamar Perplexity (Modelo: " ++ MODEL_NAME ++ ", Estilo: " ++ estilo_key ++ ")...",
                 "Erro API: " ++ raiseForStatusMsg status] } := by
  rw [chamar_perplexity, hk]
  simp [hc, ht, hst]

theorem chamar_miss_badParse (env : Env) (cache : Cache)
    (texto estilo_key custom_prompt : String) (k : String) (status : Nat)
    (hk : env.apiKey = some k)
    (hc : cacheContains cache (keyOf env texto estilo_key custom_prompt) = false)
    (ht : env.transport (payloadFor texto estilo_key custom_prompt) = .response status none)
    (hst : ¬ (400 ≤ status ∧ status < 600)) :
    chamar_perplexity env cache texto estilo_key custom_prompt =
      { result := .error (.remoteError (REMOTE_ERROR_PREFIX ++ jsonPathErrMsg))
        cache := cache
        networkCalls := 1
        cacheLookups := 1
        logs := ["A chamar Perplexity (Modelo: " ++ MODEL_NAME ++ ", Estilo: " ++ estilo_key ++ ")...",
                 "Erro API: " ++ jsonPathErrMsg] } := by
  rw [chamar_perplexity, hk]
  simp [hc, ht, hst]

theorem chamar_miss_ok (env : Env) (cache : Cache)
    (texto estilo_key custom_prompt : String) (k : String) (status : Nat) (v : String)
    (hk : env.apiKey = some k)
    (hc : cacheContains cache (keyOf env texto estilo_key custom_prompt) = false)
    (ht : env.transport (payloadFor texto estilo_key custom_prompt) = .response status (some v))
    (hst : ¬ (400 ≤ status ∧ status < 600)) :
    chamar_perplexity env cache texto estilo_key custom_prompt =
      { result := .ok v
        cache := cachePut cache (keyOf env texto estilo_key custom_prompt) v
        networkCalls := 1
        cacheLookups := 1
        logs := ["A chamar Perplexity (Modelo: " ++ MODEL_NAME ++ ", Estilo: " ++ estilo_key ++ ")..."] } := by
  rw [chamar_perplexity, hk]
  simp [hc, ht, hst]

/-! ## Derived facts about `chamar_perplexity` -/

theorem chamar_ok_stored (env : Env) (cache : Cache)
    (texto estilo_key custom_prompt s : String)
    (h : (chamar_perplexity env cache texto estilo_key custom_prompt).result = .ok s) :
    cacheGet (chamar_perplexity env cache texto estilo_key custom_prompt).cache
      (keyOf env texto estilo_key custom_prompt) = some s := by
  cases hk : env.apiKey with
  | none =>
    rw [chamar_noKey env cache texto estilo_key custom_prompt hk] at h
    exact absurd h (by simp)
  | some k =>
    cases hc : cacheContains cache (keyOf env texto estilo_key custom_prompt) with
    | true =>
      rw [chamar_hit env cache texto estilo_key custom_prompt k hk hc] at h
      rw [chamar_hit env cache texto estilo_key custom_prompt k hk hc]
      simp only [Except.ok.injEq] at h
      show cacheGet cache (keyOf env texto estilo_key custom_prompt) = some s
      have hs : (cacheGet cache (keyOf env texto estilo_key custom_prompt)).isSome := by
        rw [← cacheContains_isSome, hc]
      obtain ⟨v, hv⟩ := Option.isSome_iff_exists.1 hs
      rw [hv] at h ⊢
      rw [Option.getD_some] at h
      rw [h]
    | false =>
      cases ht : env.transport (payloadFor texto estilo_key custom_prompt) with
      | timeout =>
        rw [chamar_miss_timeout env cache texto estilo_key custom_prompt k hk hc ht] at h
        exact absurd h (by simp)
      | netError m =>
        rw [chamar_miss_netError env cache texto estilo_key custom_prompt k m hk hc ht] at h
        exact absurd h (by simp)
      | response status content =>
        by_cases hst : 400 ≤ status ∧ status < 600
        · rw [chamar_miss_badStatus env cache texto estilo_key custom_prompt k status
            content hk hc ht hst] at h
          exact absurd h (by simp)
        · cases content with
          | none =>
            rw [chamar_miss_badParse env cache texto estilo_key custom_prompt k status
              hk hc ht hst] at h
            exact absurd h (by simp)
          | some v =>
            rw [chamar_miss_ok env cache texto estilo_key custom_prompt k status v
              hk hc ht hst] at h
            rw [chamar_miss_ok env cache texto estilo_key custom_prompt k status v
              hk hc ht hst]
            simp only [Except.ok.injEq] at h
            show cacheGet (cachePut cache (keyOf env texto estilo_key custom_prompt) v)
              (keyOf env texto estilo_key custom_prompt) = some s
            rw [h] at *
            exact cacheGet_put_self cache _ s

theorem chamar_cache_shape (env : Env) (cache : Cache)
    (texto estilo_key custom_prompt : String) :
    (chamar_perplexity env cache texto estilo_key custom_prompt).cache = cache ∨
    ∃ v, (chamar_perplexity env cache texto estilo_key custom_prompt).cache =
      cachePut cache (keyOf env texto estilo_key custom_prompt) v ∧
      (chamar_perplexity env cache texto estilo_key custom_prompt).result = .ok v := by
  cases hk : env.apiKey with
  | none =>
    rw [chamar_noKey env cache texto estilo_key custom_prompt hk]
    exact Or.inl rfl
  | some k =>
    cases hc : cacheContains cache (keyOf env texto estilo_key custom_prompt) with
    | true =>
      rw [chamar_hit env cache texto estilo_key custom_prompt k hk hc]
      exact Or.inl rfl
    | false =>
      cases ht : env.transport (payloadFor texto estilo_key custom_prompt) with
      | timeout =>
        rw [chamar_miss_timeout env cache texto estilo_key custom_prompt k hk hc ht]
        exact Or.inl rfl
      | netError m =>
        rw [chamar_miss_netError env cache texto estilo_key custom_prompt k m hk hc ht]
        exact Or.inl rfl
      | response status content =>
        by_cases hst : 400 ≤ status ∧ status < 600
        · rw [chamar_miss_badStatus env cache texto estilo_key custom_prompt k status
            content hk hc ht hst]
          exact Or.inl rfl
        · cases content with
          | none =>
            rw [chamar_miss_badParse env cache texto estilo_key custom_prompt k status
              hk hc ht hst]
            exact Or.inl rfl
          | some v =>
            rw [chamar_miss_ok env cache texto estilo_key custom_prompt k status v
              hk hc ht hst]
            exact Or.inr ⟨v, rfl, rfl⟩

theorem chamar_networkCalls_le_one (env : Env) (cache : Cache)
    (texto estilo_key custom_prompt : String) :
    (chamar_perplexity env cache texto estilo_key custom_prompt).networkCalls ≤ 1 := by
  cases hk : env.apiKey with
  | none =>
    rw [chamar_noKey env cache texto estilo_key custom_prompt hk]
    exact Nat.zero_le 1
  | some k =>
    cases hc : cacheContains cache (keyOf env texto estilo_key custom_prompt) with
    | true =>
      rw [chamar_hit env cache texto estilo_key custom_prompt k hk hc]
      exact Nat.zero_le 1
    | false =>
      cases ht : env.transport (payloadFor texto estilo_key custom_prompt) with
      | timeout =>
        rw [chamar_miss_timeout env cache texto estilo_key custom_prompt k hk hc ht]
      | netError m =>
        rw [chamar_miss_netError env cache texto estilo_key custom_prompt k m hk hc ht]
      | response status content =>
        by_cases hst : 400 ≤ status ∧ status < 600
        · rw [chamar_miss_badStatus env cache texto estilo_key custom_prompt k status
            content hk hc ht hst]
        · cases content with
          | none =>
            rw [chamar_miss_badParse env cache texto estilo_key custom_prompt k status
              hk hc ht hst]
          | some v =>
            rw [chamar_miss_ok env cache texto estilo_key custom_prompt k status v
              hk hc ht hst]

theorem chamar_cache_length (env : Env) (cache : Cache)
    (texto estilo_key custom_prompt : String) (h : cache.length ≤ 51) :
    (chamar_perplexity env cache texto estilo_key custom_prompt).cache.length ≤ 51 := by
  rcases chamar_cache_shape env cache texto estilo_key custom_prompt with heq | ⟨v, heq, _⟩
  · rw [heq]; exact h
  · rw [heq]; exact cachePut_length_le cache _ v h

/-! ## Sequences of fresh, successful calls -/

theorem timeout_msg_ne_remote (s : String) :
    TIMEOUT_ERROR_MSG ≠ REMOTE_ERROR_PREFIX ++ s := by
  intro h
  have h3 : List.head? (String.data TIMEOUT_ERROR_MSG) =
      List.head? (String.data (REMOTE_ERROR_PREFIX ++ s)) := by rw [h]
  rw [show List.head? (String.data TIMEOUT_ERROR_MSG) = some (Char.ofNat 65) from rfl] at h3
  rw [show List.head? (String.data (REMOTE_ERROR_PREFIX ++ s)) = some (Char.ofNat 69) from rfl] at h3
  simp at h3

theorem runSummaries_cons (env : Env) (estilo custom t : String) (ts : List String)
    (cache : Cache) :
    runSummaries env estilo custom (t :: ts) cache =
      runSummaries env estilo custom ts
        ((chamar_perplexity env cache t estilo custom).cache) := rfl

theorem runSummaries_append (env : Env) (estilo custom : String) (l m : List String)
    (cache : Cache) :
    runSummaries env estilo custom (l ++ m) cache =
      runSummaries env estilo custom m (runSummaries env estilo custom l cache) := by
  simp [runSummaries, List.foldl_append]

theorem cacheGet_none_of_ne (c : Cache) (k : String)
    (h : ∀ p ∈ c, p.1 ≠ k) : cacheGet c k = none := by
  have hf : c.find? (fun p => p.1 == k) = none :=
    List.find?_eq_none.2 (fun x hx => by simp only [beq_iff_eq]; exact h x hx)
  rw [cacheGet, hf]
  rfl

theorem runSummaries_fresh (env : Env) (k : String) (f : Payload → String)
    (estilo custom : String)
    (hk : env.apiKey = some k)
    (ht : ∀ p, env.transport p = .response 200 (some (f p))) :
    ∀ (textos : List String) (cache : Cache),
      cache.length + textos.length ≤ 51 →
      (∀ t ∈ textos, cacheContains cache (keyOf env t estilo custom) = false) →
      (textos.map (fun t => keyOf env t estilo custom)).Nodup →
      runSummaries env estilo custom textos cache =
        cache ++ textos.map (fun t =>
          (keyOf env t estilo custom, f (payloadFor t estilo custom))) := by
  intro textos
  induction textos with
  | nil =>
    intro cache _ _ _
    simp [runSummaries]
  | cons t ts ih =>
    intro cache hlen hfresh hnd
    have hfre_t : cacheContains cache (keyOf env t estilo custom) = false :=
      hfresh t (List.mem_cons_self t ts)
    have hsmall : cache.length ≤ 50 := by
      rw [List.length_cons] at hlen; omega
    have hstep := chamar_miss_ok env cache t estilo custom k 200
      (f (payloadFor t estilo custom)) hk hfre_t (ht _) (by omega)
    rw [runSummaries_cons, hstep]
    show runSummaries env estilo custom ts
      (cachePut cache (keyOf env t estilo custom) (f (payloadFor t estilo custom))) = _
    rw [cachePut_fresh_small cache _ _ hsmall hfre_t]
    rw [List.map_cons, List.nodup_cons] at hnd
    have hlen2 : (cache ++ [(keyOf env t estilo custom, f (payloadFor t estilo custom))]).length
        + ts.length ≤ 51 := by
      rw [List.length_append]
      rw [List.length_cons] at hlen
      simp only [List.length_cons, List.length_nil]
      omega
    have hfresh2 : ∀ t2 ∈ ts,
        cacheContains (cache ++ [(keyOf env t estilo custom, f (payloadFor t estilo custom))])
          (keyOf env t2 estilo custom) = false := by
      intro t2 ht2
      have h1 : cacheContains cache (keyOf env t2 estilo custom) = false :=
        hfresh t2 (List.mem_cons_of_mem t ht2)
      rw [cacheContains] at h1 ⊢
      rw [List.any_append, h1]
      simp only [List.any_cons, List.any_nil, Bool.or_false, Bool.false_or]
      rw [beq_eq_false_iff_ne]
      intro heq
      exact hnd.1 (by rw [heq]; exact List.mem_map_of_mem _ ht2)
    rw [ih _ hlen2 hfresh2 hnd.2]
    simp

theorem cacheGet_map_fresh (env : Env) (estilo custom : String) (f : Payload → String) :
    ∀ (l : List String), (l.map (fun t => keyOf env t estilo custom)).Nodup →
      ∀ t ∈ l,
        cacheGet (l.map (fun t2 =>
            (keyOf env t2 estilo custom, f (payloadFor t2 estilo custom))))
          (keyOf env t estilo custom) = some (f (payloadFor t estilo custom)) := by
  intro l
  induction l with
  | nil => intro _ t ht; cases ht
  | cons a l ih =>
    intro hnd t ht
    rw [List.map_cons]
    rw [List.map_cons, List.nodup_cons] at hnd
    rcases List.mem_cons.1 ht with rfl | htl
    · exact cacheGet_cons_self _ _ _
    · by_cases hkey : keyOf env a estilo custom = keyOf env t estilo custom
      · exact absurd (by rw [hkey]; exact List.mem_map_of_mem _ htl) hnd.1
      · rw [cacheGet_cons_of_ne _ _ _ (beq_eq_false_iff_ne.2 hkey)]
        exact ih hnd.2 t htl

/-! ## Concrete inputs used by witnesses and counterexamples -/

/-- An environment whose credential is absent (transport irrelevant). -/
def noKeyEnv : Env :=
  { apiKey := none
    md5hex := fun s => s
    transport := fun _ => .timeout }

/-- A text one character longer than the truncation limit. -/
def bigTexto : String := String.mk (List.replicate 100001 (Char.ofNat 97))

/-- `l.any p` stays false on the tail. -/
theorem any_tail_eq_false {α : Type} (p : α → Bool) (l : List α) (h : l.any p = false) :
    l.tail.any p = false := by
  cases l with
  | nil => rfl
  | cons a l =>
    rw [List.any_cons, Bool.or_eq_false_iff] at h
    exact h.2

/-! ## Claims -/

/-- Claim C5, as stated, is false: the counterexample shows the configured
backoff factor is 0.5 seconds, so the sleep before the first retry is 0.5 s,
not 1 s, and the schedule is not 1s/2s/4s. -/
theorem claim5_counterexample :
    retry_strategy.backoff_factor = 1 / 2 ∧
    backoff_delay retry_strategy 1 = 1 / 2 ∧
    ¬ (backoff_delay retry_strategy 1 = 1 ∧ backoff_delay retry_strategy 2 = 2 ∧
       backoff_delay retry_strategy 3 = 4) := by
  refine ⟨rfl, by norm_num [backoff_delay, retry_strategy], ?_⟩
  intro h
  have h1 := h.1
  norm_num [backoff_delay, retry_strategy] at h1

/-- Claim C5 (amended): the retry policy has a total attempt budget of 3
retries, exponential backoff with base 0.5 second doubling between attempts
(0.5s/1s/2s), retry eligibility restricted to POST requests, and retry on a
status only for codes in [500, 502, 503, 504], never on a 4xx status. -/
theorem claim5_amended :
    retry_strategy.total = 3 ∧
    retry_strategy.backoff_factor = 1 / 2 ∧
    backoff_delay retry_strategy 1 = 1 / 2 ∧
    backoff_delay retry_strategy 2 = 1 ∧
    backoff_delay retry_strategy 3 = 2 ∧
    retry_strategy.allowed_methods = ["POST"] ∧
    retry_strategy.status_forcelist = [500, 502, 503, 504] ∧
    (∀ m s, retries_on_status retry_strategy m s = true →
      m = "POST" ∧ s ∈ [500, 502, 503, 504]) ∧
    (∀ s, 400 ≤ s → s < 500 → retries_on_status retry_strategy "POST" s = false) := by
  refine ⟨rfl, rfl, by norm_num [backoff_delay, retry_strategy],
    by norm_num [backoff_delay, retry_strategy],
    by norm_num [backoff_delay, retry_strategy], rfl, rfl, ?_, ?_⟩
  · intro m s h
    rw [retries_on_status, Bool.and_eq_true] at h
    constructor
    · have hm := List.mem_of_elem_eq_true h.1
      simpa [retry_strategy] using hm
    · exact List.mem_of_elem_eq_true h.2
  · intro s h4 h5
    rw [retries_on_status]
    have hs : retry_strategy.status_forcelist.contains s = false := by
      rw [Bool.eq_false_iff]
      intro hcon
      have hm := List.mem_of_elem_eq_true hcon
      simp only [retry_strategy, List.mem_cons, List.not_mem_nil, or_false] at hm
      omega
    rw [hs, Bool.and_false]

/-- Claim C5 witness: the amended retry predicate, applied at the concrete
non-retryable status 404. -/
theorem claim5_amended_witness :
    (400 ≤ 404 ∧ 404 < 500) ∧ retries_on_status retry_strategy "POST" 404 = false :=
  ⟨⟨by norm_num, by norm_num⟩, claim5_amended.2.2.2.2.2.2.2.2 404 (by norm_num) (by norm_num)⟩

/-- Claim C6: for text longer than the 100000-character safety limit, the text
embedded in the user prompt is truncated to exactly 100000 characters, while
the character count reported in the prompt lead-in is the length of the
original untruncated text, which is strictly larger. -/
theorem claim6_truncation (texto : String) (h : MAX_TEXT_LENGTH < texto.length) :
    (truncatedText texto).length = MAX_TEXT_LENGTH ∧
    reportedCharCount texto = texto.length ∧
    (truncatedText texto).length < reportedCharCount texto := by
  have h1 : (truncatedText texto).length = MAX_TEXT_LENGTH := by
    show (pySlice texto MAX_TEXT_LENGTH).length = MAX_TEXT_LENGTH
    rw [pySlice_length]
    omega
  refine ⟨h1, rfl, ?_⟩
  rw [h1]
  exact h

/-- Claim C6 witness: a 100001-character text is truncated to 100000 characters
while 100001 is reported. -/
theorem claim6_witness :
    MAX_TEXT_LENGTH < bigTexto.length ∧
    ((truncatedText bigTexto).length = MAX_TEXT_LENGTH ∧
     reportedCharCount bigTexto = bigTexto.length ∧
     (truncatedText bigTexto).length < reportedCharCount bigTexto) := by
  have h : MAX_TEXT_LENGTH < bigTexto.length := by
    show MAX_TEXT_LENGTH < (List.replicate 100001 (Char.ofNat 97)).length
    rw [List.length_replicate]
    norm_num [MAX_TEXT_LENGTH]
  exact ⟨h, claim6_truncation bigTexto h⟩

/-- Claim C7: a request whose text is shorter than 10 characters after
stripping whitespace (including empty or absent text) is rejected with
HTTP 400 and the fixed message, before any cache lookup or network call
(cache untouched, zero lookups, zero network calls, no logs). -/
theorem claim7_short_input_rejected (env : Env) (cache : Cache)
    (terms_text style custom_prompt : Option String)
    (h : (pyStrip (terms_text.getD "")).length < 10) :
    api_summarize env cache terms_text style custom_prompt =
      { status := 400
        body := .errorMsg "Texto insuficiente para análise."
        cache := cache
        networkCalls := 0
        cacheLookups := 0
        logs := [] } := by
  simp only [api_summarize]
  rw [if_pos (Or.inr h)]

/-- Claim C7 witness: the spec example, whitespace-padded "hi", is rejected. -/
theorem claim7_witness :
    (pyStrip ((some "   hi   ").getD "")).length < 10 ∧
    api_summarize noKeyEnv [] (some "   hi   ") none none =
      { status := 400
        body := .errorMsg "Texto insuficiente para análise."
        cache := []
        networkCalls := 0
        cacheLookups := 0
        logs := [] } :=
  ⟨by decide, claim7_short_input_rejected noKeyEnv [] (some "   hi   ") none none (by decide)⟩

/-- Claim C8: looking up a style identifier not present in `STYLE_PROMPTS`
yields the same entry as looking up the default "curto" (silent fallback, no
failure), while every identifier present in the table yields its own entry. -/
theorem claim8_style_fallback :
    (∀ estilo_key : String, estilo_key ∉ STYLE_PROMPTS.map Prod.fst →
      styleGet estilo_key = styleGet "curto") ∧
    (∀ p ∈ STYLE_PROMPTS, styleGet p.1 = p.2) := by
  constructor
  · intro ek hek
    have hf : STYLE_PROMPTS.find? (fun p => p.1 == ek) = none := by
      apply List.find?_eq_none.2
      intro x hx
      simp only [beq_iff_eq]
      intro hx1
      exact hek (hx1 ▸ List.mem_map_of_mem Prod.fst hx)
    rw [styleGet, hf]
    rfl
  · intro p hp
    simp only [STYLE_PROMPTS, List.mem_cons, List.not_mem_nil, or_false] at hp
    rcases hp with rfl | rfl | rfl | rfl <;> rfl

/-- Claim C8 witness: the unknown identifier "xyz" falls back to "curto". -/
theorem claim8_witness :
    "xyz" ∉ STYLE_PROMPTS.map Prod.fst ∧ styleGet "xyz" = styleGet "curto" :=
  ⟨by decide, claim8_style_fallback.1 "xyz" (by decide)⟩

/-- Claim C3: with the API credential absent, a valid request fails before any
network call: `chamar_perplexity` raises the configuration error immediately
(zero network calls, zero cache lookups, cache untouched), the handler returns
HTTP 500 with the generic configuration message, and the specific cause is
written to the critical log but differs from the returned message. -/
theorem claim3_missing_credential (env : Env) (cache : Cache)
    (terms_text style custom_prompt : Option String)
    (hk : env.apiKey = none)
    (hlen : 10 ≤ (pyStrip (terms_text.getD "")).length) :
    api_summarize env cache terms_text style custom_prompt =
      { status := 500
        body := .errorMsg CONFIG_ERROR_MSG
        cache := cache
        networkCalls := 0
        cacheLookups := 0
        logs := [CONFIG_CRITICAL_LOG] } ∧
    CONFIG_ERROR_MSG ≠ CONFIG_CRITICAL_LOG := by
  constructor
  · have hne : ¬ (terms_text.getD "" = "" ∨ (pyStrip (terms_text.getD "")).length < 10) := by
      rintro (he | hlt)
      · rw [he, pyStrip_empty] at hlen
        exact absurd hlen (by decide)
      · omega
    simp only [api_summarize]
    rw [if_neg hne]
    rw [chamar_noKey env cache _ _ _ hk]
    rfl
  · decide

/-- Claim C3 witness: a concrete valid text with the credential absent. -/
theorem claim3_witness :
    noKeyEnv.apiKey = none ∧
    10 ≤ (pyStrip ((some "0123456789").getD "")).length ∧
    (api_summarize noKeyEnv [] (some "0123456789") none none =
      { status := 500
        body := .errorMsg CONFIG_ERROR_MSG
        cache := []
        networkCalls := 0
        cacheLookups := 0
        logs := [CONFIG_CRITICAL_LOG] } ∧
     CONFIG_ERROR_MSG ≠ CONFIG_CRITICAL_LOG) :=
  ⟨rfl, by decide,
   claim3_missing_credential noKeyEnv [] (some "0123456789") none none rfl (by decide)⟩

/-- Claim C4: on a cache miss, a transport timeout surfaces as the dedicated
timeout error with its fixed user-facing message, an HTTP error status (after
the transport's internal retries) surfaces as a generic remote error, the two
error constructors are distinct, and the timeout message differs from every
generic remote-error message. -/
theorem claim4_timeout_distinguished (k : String) (md5 : String → String)
    (t1 t2 : Payload → PostResult) (cache : Cache)
    (texto estilo_key custom_prompt : String) (status : Nat) (content : Option String)
    (hmiss : cacheContains cache (md5 (input_signature texto estilo_key custom_prompt)) = false)
    (h1 : t1 (payloadFor texto estilo_key custom_prompt) = .timeout)
    (hst : 400 ≤ status ∧ status < 600)
    (h2 : t2 (payloadFor texto estilo_key custom_prompt) = .response status content) :
    (chamar_perplexity ⟨some k, md5, t1⟩ cache texto estilo_key custom_prompt).result =
      .error (.timeoutError TIMEOUT_ERROR_MSG) ∧
    (chamar_perplexity ⟨some k, md5, t2⟩ cache texto estilo_key custom_prompt).result =
      .error (.remoteError (REMOTE_ERROR_PREFIX ++ raiseForStatusMsg status)) ∧
    (∀ m1 m2 : String, AppError.timeoutError m1 ≠ AppError.remoteError m2) ∧
    (∀ m : String, TIMEOUT_ERROR_MSG ≠ REMOTE_ERROR_PREFIX ++ m) := by
  refine ⟨?_, ?_, ?_, timeout_msg_ne_remote⟩
  · rw [chamar_miss_timeout ⟨some k, md5, t1⟩ cache texto estilo_key custom_prompt k rfl
      hmiss h1]
  · rw [chamar_miss_badStatus ⟨some k, md5, t2⟩ cache texto estilo_key custom_prompt k
      status content rfl hmiss h2 hst]
  · intro m1 m2 hcon
    exact AppError.noConfusion hcon

/-- Claim C4 witness: a timing-out transport and a 503-returning transport on
the same fresh input. -/
theorem claim4_witness :
    cacheContains [] ((fun s => s) (input_signature "abc" "curto" "")) = false ∧
    ((400 ≤ 503 ∧ 503 < 600) ∧
     ((chamar_perplexity ⟨some "k", fun s => s, fun _ => .timeout⟩ [] "abc" "curto" "").result =
        .error (.timeoutError TIMEOUT_ERROR_MSG) ∧
      (chamar_perplexity ⟨some "k", fun s => s, fun _ => .response 503 none⟩ [] "abc" "curto" "").result =
        .error (.remoteError (REMOTE_ERROR_PREFIX ++ raiseForStatusMsg 503)) ∧
      (∀ m1 m2 : String, AppError.timeoutError m1 ≠ AppError.remoteError m2) ∧
      (∀ m : String, TIMEOUT_ERROR_MSG ≠ REMOTE_ERROR_PREFIX ++ m))) :=
  ⟨rfl, ⟨by norm_num, by norm_num⟩,
   claim4_timeout_distinguished "k" (fun s => s) (fun _ => .timeout)
     (fun _ => .response 503 none) [] "abc" "curto" "" 503 none rfl rfl
     ⟨by norm_num, by norm_num⟩ rfl⟩

/-- Claim C10: any failing `chamar_perplexity` call (timeout, HTTP error
status, other transport fault, parse fault, or missing credential) leaves the
cache exactly as it was: nothing inserted, nothing evicted. -/
theorem claim10_failed_call_cache_unchanged (env : Env) (cache : Cache)
    (texto estilo_key custom_prompt : String) (e : AppError)
    (h : (chamar_perplexity env cache texto estilo_key custom_prompt).result = .error e) :
    (chamar_perplexity env cache texto estilo_key custom_prompt).cache = cache := by
  rcases chamar_cache_shape env cache texto estilo_key custom_prompt with heq | ⟨v, heq, hok⟩
  · exact heq
  · rw [hok] at h
    exact absurd h (by simp)

/-- Claim C10 witness: a call that fails with a timeout leaves the singleton
cache untouched. -/
theorem claim10_witness :
    (chamar_perplexity ⟨some "k", fun s => s, fun _ => .timeout⟩ [("x", "y")]
        "abc" "curto" "").result = .error (.timeoutError TIMEOUT_ERROR_MSG) ∧
    (chamar_perplexity ⟨some "k", fun s => s, fun _ => .timeout⟩ [("x", "y")]
        "abc" "curto" "").cache = [("x", "y")] :=
  ⟨rfl, claim10_failed_call_cache_unchanged ⟨some "k", fun s => s, fun _ => .timeout⟩
    [("x", "y")] "abc" "curto" "" (.timeoutError TIMEOUT_ERROR_MSG) rfl⟩

/-- Claim C2: with the credential present, if a first `chamar_perplexity` call
on a triple succeeds, its result is stored under the triple's cache key, and a
second call on the same triple — with an arbitrary (possibly failing)
transport — returns the same result from the cache with zero network calls,
leaving the cache unchanged; the two calls together make at most one network
call. -/
theorem claim2_second_call_cached (k : String) (md5 : String → String)
    (t1 t2 : Payload → PostResult) (cache : Cache)
    (texto estilo_key custom_prompt s : String)
    (h : (chamar_perplexity ⟨some k, md5, t1⟩ cache texto estilo_key custom_prompt).result =
      .ok s) :
    cacheGet (chamar_perplexity ⟨some k, md5, t1⟩ cache texto estilo_key custom_prompt).cache
      (keyOf ⟨some k, md5, t1⟩ texto estilo_key custom_prompt) = some s ∧
    (chamar_perplexity ⟨some k, md5, t2⟩
      (chamar_perplexity ⟨some k, md5, t1⟩ cache texto estilo_key custom_prompt).cache
      texto estilo_key custom_prompt).result = .ok s ∧
    (chamar_perplexity ⟨some k, md5, t2⟩
      (chamar_perplexity ⟨some k, md5, t1⟩ cache texto estilo_key custom_prompt).cache
      texto estilo_key custom_prompt).networkCalls = 0 ∧
    (chamar_perplexity ⟨some k, md5, t2⟩
      (chamar_perplexity ⟨some k, md5, t1⟩ cache texto estilo_key custom_prompt).cache
      texto estilo_key custom_prompt).cache =
      (chamar_perplexity ⟨some k, md5, t1⟩ cache texto estilo_key custom_prompt).cache ∧
    (chamar_perplexity ⟨some k, md5, t1⟩ cache texto estilo_key custom_prompt).networkCalls +
      (chamar_perplexity ⟨some k, md5, t2⟩
        (chamar_perplexity ⟨some k, md5, t1⟩ cache texto estilo_key custom_prompt).cache
        texto estilo_key custom_prompt).networkCalls ≤ 1 := by
  have hstored := chamar_ok_stored ⟨some k, md5, t1⟩ cache texto estilo_key custom_prompt s h
  have hcon : cacheContains
      (chamar_perplexity ⟨some k, md5, t1⟩ cache texto estilo_key custom_prompt).cache
      (keyOf ⟨some k, md5, t2⟩ texto estilo_key custom_prompt) = true := by
    rw [cacheContains_isSome]
    rw [show keyOf ⟨some k, md5, t2⟩ texto estilo_key custom_prompt =
      keyOf ⟨some k, md5, t1⟩ texto estilo_key custom_prompt from rfl]
    rw [hstored]
    rfl
  have h2 := chamar_hit ⟨some k, md5, t2⟩
    (chamar_perplexity ⟨some k, md5, t1⟩ cache texto estilo_key custom_prompt).cache
    texto estilo_key custom_prompt k rfl hcon
  rw [h2]
  refine ⟨hstored, ?_, rfl, rfl, ?_⟩
  · show Except.ok ((cacheGet
      (chamar_perplexity ⟨some k, md5, t1⟩ cache texto estilo_key custom_prompt).cache
      (keyOf ⟨some k, md5, t2⟩ texto estilo_key custom_prompt)).getD "") = Except.ok s
    rw [show keyOf ⟨some k, md5, t2⟩ texto estilo_key custom_prompt =
      keyOf ⟨some k, md5, t1⟩ texto estilo_key custom_prompt from rfl]
    rw [hstored]
    rfl
  · have hle := chamar_networkCalls_le_one ⟨some k, md5, t1⟩ cache texto estilo_key custom_prompt
    show (chamar_perplexity ⟨some k, md5, t1⟩ cache texto estilo_key custom_prompt).networkCalls
      + 0 ≤ 1
    omega

/-- Claim C2 witness: a successful first call, then a second call whose
transport always times out, still answers from the cache. -/
theorem claim2_witness :
    (chamar_perplexity ⟨some "k", fun s => s, fun _ => .response 200 (some "resumo")⟩ []
        "abc" "curto" "").result = .ok "resumo" ∧
    (chamar_perplexity ⟨some "k", fun s => s, fun _ => .timeout⟩
        (chamar_perplexity ⟨some "k", fun s => s, fun _ => .response 200 (some "resumo")⟩ []
          "abc" "curto" "").cache
        "abc" "curto" "").result = .ok "resumo" ∧
    (chamar_perplexity ⟨some "k", fun s => s, fun _ => .timeout⟩
        (chamar_perplexity ⟨some "k", fun s => s, fun _ => .response 200 (some "resumo")⟩ []
          "abc" "curto" "").cache
        "abc" "curto" "").networkCalls = 0 :=
  ⟨rfl,
   (claim2_second_call_cached "k" (fun s => s) (fun _ => .response 200 (some "resumo"))
     (fun _ => .timeout) [] "abc" "curto" "" "resumo" rfl).2.1,
   (claim2_second_call_cached "k" (fun s => s) (fun _ => .response 200 (some "resumo"))
     (fun _ => .timeout) [] "abc" "curto" "" "resumo" rfl).2.2.1⟩

/-- Claim C9: starting from the empty cache, after any sequence of
`chamar_perplexity` calls (so immediately after every insert the sequence
performs), the cache holds at most C+1 = 51 entries. -/
theorem claim9_cache_size_bound (env : Env) (estilo custom : String)
    (textos : List String) :
    (runSummaries env estilo custom textos []).length ≤ 51 := by
  have gen : ∀ (l : List String) (c : Cache), c.length ≤ 51 →
      (runSummaries env estilo custom l c).length ≤ 51 := by
    intro l
    induction l with
    | nil =>
      intro c hc
      simpa [runSummaries] using hc
    | cons t ts ih =>
      intro c hc
      rw [runSummaries_cons]
      exact ih _ (chamar_cache_length env c t estilo custom hc)
  exact gen textos [] (by simp)

/-- Concrete environment for the capacity scenarios: credential present,
identity digest oracle, every post succeeding with summary "resumo". -/
def cexEnv : Env :=
  { apiKey := some "k"
    md5hex := fun s => s
    transport := fun _ => .response 200 (some "resumo") }

/-- Fifty-one pairwise distinct input texts. -/
def cexTextos : List String :=
  ["t01", "t02", "t03", "t04", "t05", "t06", "t07", "t08", "t09", "t10", "t11", "t12", "t13", "t14", "t15", "t16", "t17", "t18", "t19", "t20", "t21", "t22", "t23", "t24", "t25", "t26", "t27", "t28", "t29", "t30", "t31", "t32", "t33", "t34", "t35", "t36", "t37", "t38", "t39", "t40", "t41", "t42", "t43", "t44", "t45", "t46", "t47", "t48", "t49", "t50", "t51"]

/-- A `cachePut` into a cache already holding 51 fresh-keyed entries drops the
oldest entry and appends the new one. -/
theorem cachePut_full_fresh (c : Cache) (k v : String)
    (hlen : c.length = 51) (h : cacheContains c k = false) :
    cachePut c k v = c.tail ++ [(k, v)] := by
  rw [cachePut, cacheEvict, if_pos (by omega)]
  rw [cacheContains] at h
  exact cacheInsert_fresh _ _ _ (any_tail_eq_false _ _ h)

theorem runSummaries_singleton (env : Env) (estilo custom t : String) (cache : Cache) :
    runSummaries env estilo custom [t] cache =
      (chamar_perplexity env cache t estilo custom).cache := rfl

/-- Claim C1, as stated, is false: after 51 successful summarize calls with 51
pairwise distinct cache keys starting from the empty cache, the cache holds 51
keys (not 50) and the first-inserted key is still present (nothing was
evicted), because the code evicts only when the size already exceeds 50
before the insert. -/
theorem claim1_counterexample :
    (cexTextos.map (fun t => keyOf cexEnv t "curto" "")).Nodup ∧
    cexTextos.length = 51 ∧
    (runSummaries cexEnv "curto" "" cexTextos []).length = 51 ∧
    (runSummaries cexEnv "curto" "" cexTextos []).length ≠ 50 ∧
    cacheGet (runSummaries cexEnv "curto" "" cexTextos [])
      (keyOf cexEnv "t01" "curto" "") = some "resumo" := by
  have hnd : (cexTextos.map (fun t => keyOf cexEnv t "curto" "")).Nodup := by decide
  have hrun := runSummaries_fresh cexEnv "k" (fun _ => "resumo") "curto" "" rfl
    (fun p => rfl) cexTextos [] (by decide) (fun t _ => rfl) hnd
  rw [List.nil_append] at hrun
  refine ⟨hnd, by decide, ?_, ?_, ?_⟩
  · rw [hrun, List.length_map]
    decide
  · rw [hrun, List.length_map]
    decide
  · rw [hrun]
    exact cacheGet_map_fresh cexEnv "curto" "" (fun _ => "resumo") cexTextos hnd "t01"
      (by decide)

/-- Claim C1 (amended): starting from the empty cache, inserting C+2 = 52
distinct keys via successful summarize calls leaves exactly C+1 = 51 keys
present, and the evicted key is the one inserted first (FIFO by insertion
order): the first text's key is gone, every later text's key is still present
with its summary. -/
theorem claim1_amended (env : Env) (k : String) (f : Payload → String)
    (estilo custom t0 : String) (rest : List String)
    (hk : env.apiKey = some k)
    (ht : ∀ p, env.transport p = .response 200 (some (f p)))
    (hlen : rest.length = 51)
    (hnd : ((t0 :: rest).map (fun t => keyOf env t estilo custom)).Nodup) :
    (runSummaries env estilo custom (t0 :: rest) []).length = 51 ∧
    cacheGet (runSummaries env estilo custom (t0 :: rest) [])
      (keyOf env t0 estilo custom) = none ∧
    (∀ t ∈ rest, cacheGet (runSummaries env estilo custom (t0 :: rest) [])
      (keyOf env t estilo custom) = some (f (payloadFor t estilo custom))) := by
  obtain ⟨tl, htl⟩ : ∃ tl, rest.drop 50 = [tl] :=
    List.length_eq_one.1 (by rw [List.length_drop, hlen])
  have hresteq : rest.take 50 ++ [tl] = rest := by
    rw [← htl, List.take_append_drop]
  have hsplit : t0 :: rest = (t0 :: rest.take 50) ++ [tl] := by
    rw [List.cons_append, hresteq]
  have hnd2 : (((t0 :: rest.take 50) ++ [tl]).map
      (fun t => keyOf env t estilo custom)).Nodup := by
    rw [← hsplit]
    exact hnd
  rw [List.map_append] at hnd2
  have hndA : ((t0 :: rest.take 50).map (fun t => keyOf env t estilo custom)).Nodup :=
    (List.nodup_append.1 hnd2).1
  have hdisj := (List.nodup_append.1 hnd2).2.2
  have hnotin : keyOf env tl estilo custom ∉
      (t0 :: rest.take 50).map (fun t => keyOf env t estilo custom) := by
    intro hmem
    exact hdisj hmem (by simp)
  have hlenA : ([] : Cache).length + (t0 :: rest.take 50).length ≤ 51 := by
    simp only [List.length_nil, List.length_cons, List.length_take, hlen]
    omega
  have hrunA := runSummaries_fresh env k f estilo custom hk ht (t0 :: rest.take 50) []
    hlenA (fun t _ => rfl) hndA
  rw [List.nil_append] at hrunA
  set cacheA := (t0 :: rest.take 50).map (fun t =>
    (keyOf env t estilo custom, f (payloadFor t estilo custom))) with hcacheAdef
  have hlenmapA : cacheA.length = 51 := by
    rw [hcacheAdef]
    simp only [List.length_map, List.length_cons, List.length_take, hlen]
    omega
  have hcont : cacheContains cacheA (keyOf env tl estilo custom) = false := by
    rw [cacheContains, List.any_eq_false]
    intro p hp
    rw [hcacheAdef] at hp
    obtain ⟨t, htA, rfl⟩ := List.mem_map.1 hp
    simp only [beq_iff_eq]
    intro hbeq
    exact hnotin (by rw [← hbeq]; exact List.mem_map_of_mem _ htA)
  have hstep := chamar_miss_ok env cacheA tl estilo custom k 200
    (f (payloadFor tl estilo custom)) hk hcont (ht _) (by omega)
  have hfinal : runSummaries env estilo custom (t0 :: rest) [] =
      rest.map (fun t => (keyOf env t estilo custom, f (payloadFor t estilo custom))) := by
    rw [hsplit, runSummaries_append, hrunA, runSummaries_singleton]
    have hcache : (chamar_perplexity env cacheA tl estilo custom).cache =
        cachePut cacheA (keyOf env tl estilo custom) (f (payloadFor tl estilo custom)) := by
      rw [hstep]
    rw [hcache, cachePut_full_fresh cacheA _ _ hlenmapA hcont]
    rw [hcacheAdef, List.map_cons, List.tail_cons]
    conv_rhs => rw [← hresteq, List.map_append]
    rfl
  have hndrest : (rest.map (fun t => keyOf env t estilo custom)).Nodup := by
    rw [List.map_cons, List.nodup_cons] at hnd
    exact hnd.2
  refine ⟨?_, ?_, ?_⟩
  · rw [hfinal, List.length_map, hlen]
  · rw [hfinal]
    apply cacheGet_none_of_ne
    intro p hp
    obtain ⟨t, htr, rfl⟩ := List.mem_map.1 hp
    show keyOf env t estilo custom ≠ keyOf env t0 estilo custom
    intro heq
    rw [List.map_cons, List.nodup_cons] at hnd
    exact hnd.1 (by rw [← heq]; exact List.mem_map_of_mem _ htr)
  · intro t htr
    rw [hfinal]
    exact cacheGet_map_fresh env estilo custom f rest hndrest t htr

/-- Claim C1 witness: the amended statement at 52 concrete distinct texts. -/
theorem claim1_amended_witness :
    cexEnv.apiKey = some "k" ∧
    (∀ p, cexEnv.transport p = .response 200 (some "resumo")) ∧
    cexTextos.length = 51 ∧
    (("t00" :: cexTextos).map (fun t => keyOf cexEnv t "curto" "")).Nodup ∧
    ((runSummaries cexEnv "curto" "" ("t00" :: cexTextos) []).length = 51 ∧
     cacheGet (runSummaries cexEnv "curto" "" ("t00" :: cexTextos) [])
       (keyOf cexEnv "t00" "curto" "") = none ∧
     (∀ t ∈ cexTextos, cacheGet (runSummaries cexEnv "curto" "" ("t00" :: cexTextos) [])
       (keyOf cexEnv t "curto" "") = some "resumo")) :=
  ⟨rfl, fun _ => rfl, by decide, by decide,
   claim1_amended cexEnv "k" (fun _ => "resumo") "curto" "" "t00" cexTextos rfl
     (fun _ => rfl) (by decide) (by decide)⟩
